import Mathlib

/-!
Verification of the serverless health-telemetry pipeline
(data-ingestor-lambda, data-analyzer-lambda, notifier-lambda).

The Python sources are shallowly embedded below.  Python strings are
Lean `String`s with the character-level operations reimplemented so that
the kernel can evaluate them; Python floats produced by `float(...)` on
decimal literals are modelled by the exact-decimal type `Dec`
(an integer numerator over a power of ten), which agrees with the
binary floats on every comparison the pipeline performs at this scale.
Logging calls carry no data flow and are not modelled.
-/

namespace HealthPipeline

/-- `pow10 n = 10 ^ n` as an `Int`, by structural recursion so the kernel
evaluates it. -/
def pow10 : Nat → Int
  | 0 => 1
  | n + 1 => 10 * pow10 n

/-- Exact decimal number `num / 10 ^ pow`; the embedding of the Python
float values produced by `float(...)` on decimal literals. -/
structure Dec where
  num : Int
  pow : Nat
deriving DecidableEq

/-- Comparison of exact decimals by cross multiplication. -/
def Dec.le (a b : Dec) : Bool := a.num * pow10 b.pow ≤ b.num * pow10 a.pow

/-- Strict comparison of exact decimals. -/
def Dec.lt (a b : Dec) : Bool := a.num * pow10 b.pow < b.num * pow10 a.pow

/-- Truncation toward zero, the embedding of Python `int(...)` applied to
a float. -/
def Dec.trunc (d : Dec) : Int :=
  if d.num ≥ 0 then Int.ofNat (d.num.toNat / (pow10 d.pow).toNat)
  else - Int.ofNat ((- d.num).toNat / (pow10 d.pow).toNat)

/-! ### Character-level string operations

Reimplementations of the Python `str` operations used by the lambdas,
over `List Char`, so that every definition evaluates in the kernel. -/

/-- `chStarts pat s` : does `s` start with `pat`? -/
def chStarts : List Char → List Char → Bool
  | [], _ => true
  | _ :: _, [] => false
  | p :: ps, c :: cs => p == c && chStarts ps cs

/-- Embedding of Python `str.startswith`. -/
def strStartsWith (s pat : String) : Bool := chStarts pat.data s.data

/-- Fuel-driven worker for `chReplace`; the fuel starts at the length of
the list and each step consumes at least one character, so the
zero-fuel branch is never reached from `chReplace`. -/
def chReplaceF (pat rep : List Char) : Nat → List Char → List Char
  | _, [] => []
  | 0, l => l
  | fuel + 1, c :: cs =>
    if pat ≠ [] ∧ chStarts pat (c :: cs) then
      rep ++ chReplaceF pat rep fuel ((c :: cs).drop pat.length)
    else
      c :: chReplaceF pat rep fuel cs

/-- Replace every occurrence of `pat` (nonempty in all uses) by `rep`,
left to right, as Python `str.replace` does. -/
def chReplace (pat rep l : List Char) : List Char := chReplaceF pat rep l.length l

/-- Embedding of Python `str.replace`. -/
def strReplace (s pat rep : String) : String := ⟨chReplace pat.data rep.data s.data⟩

/-- Whitespace recognizer for Python `str.strip`. -/
def isWs (c : Char) : Bool := c == ' ' || c == '\n' || c == '\t' || c == '\r'

/-- Embedding of Python `str.strip()`. -/
def strTrim (s : String) : String :=
  ⟨((s.data.dropWhile isWs).reverse.dropWhile isWs).reverse⟩

/-- Embedding of `os.path.basename`: the part after the last slash. -/
def basename (s : String) : String :=
  ⟨s.data.foldl (fun acc c => if c == '/' then [] else acc ++ [c]) []⟩

/-- Embedding of Python `sep.join(xs)`. -/
def joinSep (sep : String) : List String → String
  | [] => ""
  | [x] => x
  | x :: xs => x ++ sep ++ joinSep sep xs

/-! ## data-ingestor-lambda -/

namespace Ingestor

/-- Environment default `MARKERS_PREFIX` (`markers/` in the source). -/
def MARKERS_DIR : String := "markers/"

/-- Environment default `RAW_PREFIX` (`raw/` in the source). -/
def RAW_DIR : String := "raw/"

/-- Environment default `PROCESSED_PREFIX`. -/
def PROCESSED_DIR : String := "processed/"

/-- Environment default `REJECTED_PREFIX`. -/
def REJECTED_DIR : String := "rejected/"

/-- The `REQUIRED_FIELDS` list of the ingestor, in source order. -/
def REQUIRED_FIELDS : List String :=
  ["event_time", "user_id", "heart_rate", "spo2", "steps",
   "temp_c", "systolic_bp", "diastolic_bp"]

/-- A CSV row as `csv.DictReader` yields it: field name to raw string. -/
abbrev Row := List (String × String)

/-- Embedding of `row.get(f)` on a dict: `none` when the key is absent. -/
def rowGet (row : Row) (f : String) : Option String :=
  (row.find? (fun p => p.1 == f)).map (fun p => p.2)

/-- Python truthiness of `row.get(f)`: `None` and the empty string are
falsy, every other string is truthy. -/
def truthy : Option String → Bool
  | none => false
  | some s => !(s == "")

/-- `row[f]` after the presence check has succeeded (the default is never
reached for a row whose required fields are all truthy). -/
def rowv (row : Row) (f : String) : String := (rowGet row f).getD ""

/-- All characters are decimal digits. -/
def allDigits (cs : List Char) : Bool := cs.all Char.isDigit

/-- Numeric value of a digit string. -/
def digitsToNat (cs : List Char) : Nat :=
  cs.foldl (fun a c => a * 10 + (c.toNat - 48)) 0

/-- Split a character list at the first dot. -/
def splitDot : List Char → List Char × Option (List Char)
  | [] => ([], none)
  | c :: cs =>
    if c == '.' then ([], some cs)
    else
      let r := splitDot cs
      (c :: r.1, r.2)

/-- Embedding of the ingestor `parse_float` (Python `float(value)` inside
try/except returning `None` on failure), on optionally signed decimal
literals — the only float syntax this pipeline produces or consumes. -/
def parse_float (s : String) : Option Dec :=
  let cs := s.data
  let signRest : Int × List Char :=
    match cs with
    | c :: rest =>
      if c == '-' then (-1, rest) else if c == '+' then (1, cs.tail) else (1, cs)
    | [] => (1, [])
  match splitDot signRest.2 with
  | (ip, none) =>
    if ip ≠ [] ∧ allDigits ip then
      some ⟨signRest.1 * Int.ofNat (digitsToNat ip), 0⟩
    else none
  | (ip, some fp) =>
    if (ip ≠ [] ∨ fp ≠ []) ∧ allDigits ip ∧ allDigits fp then
      some ⟨signRest.1 * Int.ofNat (digitsToNat ip * 10 ^ fp.length + digitsToNat fp),
            fp.length⟩
    else none

/-- Embedding of the ingestor `parse_int`: `int(float(value))`, `None` on
failure. -/
def parse_int (s : String) : Option Int := (parse_float s).map Dec.trunc

/-- `RANGES["heart_rate"]`. -/
def RANGES_heart_rate : Int × Int := (50, 180)

/-- `RANGES["spo2"]`. -/
def RANGES_spo2 : Int × Int := (90, 100)

/-- `RANGES["steps"]`. -/
def RANGES_steps : Int × Int := (0, 50000)

/-- `RANGES["temp_c"]` : `(35.0, 40.0)`. -/
def RANGES_temp_c : Dec × Dec := (⟨350, 1⟩, ⟨400, 1⟩)

/-- `RANGES["systolic_bp"]`. -/
def RANGES_systolic_bp : Int × Int := (90, 180)

/-- `RANGES["diastolic_bp"]`. -/
def RANGES_diastolic_bp : Int × Int := (60, 120)

/-- The combined test `v is not None and lo <= v <= hi` for an integer
field; its negation is the source guard
`if v is None or not lo <= v <= hi`. -/
def intOk (v : Option Int) (bounds : Int × Int) : Bool :=
  match v with
  | none => false
  | some x => bounds.1 ≤ x && x ≤ bounds.2

/-- The combined test for the decimal field `temp_c`. -/
def decOk (v : Option Dec) (bounds : Dec × Dec) : Bool :=
  match v with
  | none => false
  | some x => Dec.le bounds.1 x && Dec.le x bounds.2

/-- `dbp > sbp` on the parsed values; by the time the source evaluates it
both are known to be present, so the `none` cases are unreachable. -/
def optGtInt : Option Int → Option Int → Bool
  | some d, some s => s < d
  | _, _ => false

/-- Embedding of `validate_row` (data-ingestor-lambda/lambda_function.py,
lines 63–90).  The source first binds `hr = parse_int(row["heart_rate"])`
and so on to locals and then runs the guard chain; the parses are
inlined here. -/
def validate_row (row : Row) : Bool × String :=
  match REQUIRED_FIELDS.find? (fun f => !truthy (rowGet row f)) with
  | some f => (false, "missing_" ++ f)
  | none =>
    if !intOk (parse_int (rowv row "heart_rate")) RANGES_heart_rate then
      (false, "invalid_heart_rate")
    else if !intOk (parse_int (rowv row "spo2")) RANGES_spo2 then
      (false, "invalid_spo2")
    else if !intOk (parse_int (rowv row "steps")) RANGES_steps then
      (false, "invalid_steps")
    else if !decOk (parse_float (rowv row "temp_c")) RANGES_temp_c then
      (false, "invalid_temp_c")
    else if !intOk (parse_int (rowv row "systolic_bp")) RANGES_systolic_bp then
      (false, "invalid_systolic_bp")
    else if !intOk (parse_int (rowv row "diastolic_bp")) RANGES_diastolic_bp then
      (false, "invalid_diastolic_bp")
    else if optGtInt (parse_int (rowv row "diastolic_bp")) (parse_int (rowv row "systolic_bp")) then
      (false, "dbp_gt_sbp")
    else (true, "ok")

/-- Embedding of the ingestor `marker_key` (lines 40–42). -/
def marker_key (bucket key version_id : String) : String :=
  MARKERS_DIR ++ bucket ++ "__" ++ strReplace key "/" "__" ++ "__" ++ version_id ++ ".done"

/-- Concrete row whose heart_rate parses but is out of range (200) while
spo2 fails to parse ("abc"). -/
def rowHrSp : Row :=
  [("event_time", "t"), ("user_id", "u"), ("heart_rate", "200"),
   ("spo2", "abc"), ("steps", "1000"), ("temp_c", "36.5"),
   ("systolic_bp", "120"), ("diastolic_bp", "80")]

/-- Concrete row with both blood pressures individually in range and
diastolic above systolic. -/
def rowBp : Row :=
  [("event_time", "t"), ("user_id", "u"), ("heart_rate", "75"),
   ("spo2", "98"), ("steps", "1000"), ("temp_c", "36.5"),
   ("systolic_bp", "100"), ("diastolic_bp", "105")]

/-- Concrete row whose heart_rate is present but the empty string. -/
def rowEmptyHr : Row :=
  [("event_time", "t"), ("user_id", "u"), ("heart_rate", ""),
   ("spo2", "98"), ("steps", "1000"), ("temp_c", "36.5"),
   ("systolic_bp", "120"), ("diastolic_bp", "80")]

end Ingestor

/-! ### JSON values and `json.loads`

A minimal JSON reader covering the documents this pipeline exchanges,
written with explicit fuel so that every definition evaluates in the
kernel.  The fuel starts above the input length and every recursion step
consumes at least one input character, so the zero-fuel branches are
unreachable on the inputs the theorems use. -/

/-- JSON values, numbers as exact decimals. -/
inductive Json where
  | nullJ : Json
  | boolJ : Bool → Json
  | numJ : Dec → Json
  | strJ : String → Json
  | arrJ : List Json → Json
  | objJ : List (String × Json) → Json

/-- Drop leading JSON whitespace. -/
def skipWs : List Char → List Char
  | [] => []
  | c :: cs => if isWs c then skipWs cs else c :: cs

/-- Value of a hexadecimal digit. -/
def hexVal (c : Char) : Option Nat :=
  if c.isDigit then some (c.toNat - 48)
  else if 'a' ≤ c ∧ c ≤ 'f' then some (c.toNat - 87)
  else if 'A' ≤ c ∧ c ≤ 'F' then some (c.toNat - 55)
  else none

/-- Single-character JSON escapes. -/
def escChar (e : Char) : Option Char :=
  if e == '"' then some '"'
  else if e == '\\' then some '\\'
  else if e == '/' then some '/'
  else if e == 'n' then some '\n'
  else if e == 't' then some '\t'
  else if e == 'r' then some '\r'
  else if e == 'b' then some (Char.ofNat 8)
  else if e == 'f' then some (Char.ofNat 12)
  else none

/-- Parse the remainder of a JSON string literal (the opening quote is
already consumed); returns the content and the rest of the input. -/
def parseJStr : Nat → List Char → Option (List Char × List Char)
  | 0, _ => none
  | fuel + 1, cs =>
    match cs with
    | [] => none
    | c :: rest =>
      if c == '"' then some ([], rest)
      else if c == '\\' then
        match rest with
        | [] => none
        | e :: rest2 =>
          if e == 'u' then
            match rest2 with
            | a :: b :: c2 :: d :: rest3 =>
              match hexVal a, hexVal b, hexVal c2, hexVal d with
              | some x1, some x2, some x3, some x4 =>
                match parseJStr fuel rest3 with
                | some (res, r) =>
                  some (Char.ofNat (((x1 * 16 + x2) * 16 + x3) * 16 + x4) :: res, r)
                | none => none
              | _, _, _, _ => none
            | _ => none
          else
            match escChar e with
            | some ec =>
              match parseJStr fuel rest2 with
              | some (res, r) => some (ec :: res, r)
              | none => none
            | none => none
      else
        match parseJStr fuel rest with
        | some (res, r) => some (c :: res, r)
        | none => none

/-- All characters are decimal digits. -/
def allDigits (cs : List Char) : Bool := cs.all Char.isDigit

/-- Numeric value of a digit string. -/
def digitsToNat (cs : List Char) : Nat :=
  cs.foldl (fun a c => a * 10 + (c.toNat - 48)) 0

/-- Finish a JSON number after the integer and fraction digits: an
optional exponent part. -/
def parseJNumExp (sign : Int) (ip fp : List Char) (cs : List Char) :
    Option (Dec × List Char) :=
  let base : Int := sign * Int.ofNat (digitsToNat ip * 10 ^ fp.length + digitsToNat fp)
  match cs with
  | c :: rest =>
    if c == 'e' ∨ c == 'E' then
      let signRest : Bool × List Char :=
        match rest with
        | c2 :: r2 =>
          if c2 == '-' then (true, r2)
          else if c2 == '+' then (false, r2)
          else (false, rest)
        | [] => (false, rest)
      let ed := signRest.2.takeWhile Char.isDigit
      if ed.isEmpty then none
      else
        let rest3 := signRest.2.dropWhile Char.isDigit
        if signRest.1 then some (⟨base, fp.length + digitsToNat ed⟩, rest3)
        else some (⟨base * pow10 (digitsToNat ed), fp.length⟩, rest3)
    else some (⟨base, fp.length⟩, cs)
  | [] => some (⟨base, fp.length⟩, cs)

/-- Parse a JSON number. -/
def parseJNum (cs : List Char) : Option (Dec × List Char) :=
  let signRest : Int × List Char :=
    match cs with
    | c :: rest => if c == '-' then (-1, rest) else (1, cs)
    | [] => (1, [])
  let ip := signRest.2.takeWhile Char.isDigit
  if ip.isEmpty then none
  else
    match signRest.2.dropWhile Char.isDigit with
    | c :: rest =>
      if c == '.' then
        let fp := rest.takeWhile Char.isDigit
        if fp.isEmpty then none
        else parseJNumExp signRest.1 ip fp (rest.dropWhile Char.isDigit)
      else parseJNumExp signRest.1 ip [] (c :: rest)
    | [] => parseJNumExp signRest.1 ip [] []

mutual

/-- Parse one JSON value. -/
def parseJVal : Nat → List Char → Option (Json × List Char)
  | 0, _ => none
  | fuel + 1, cs0 =>
    match skipWs cs0 with
    | [] => none
    | c :: rest =>
      if c == '"' then
        (parseJStr (rest.length + 1) rest).map (fun p => (.strJ ⟨p.1⟩, p.2))
      else if c == '[' then
        match skipWs rest with
        | c2 :: r3 =>
          if c2 == ']' then some (.arrJ [], r3)
          else (parseJArr fuel (c2 :: r3)).map (fun p => (.arrJ p.1, p.2))
        | [] => none
      else if c == '{' then
        match skipWs rest with
        | c2 :: r3 =>
          if c2 == '}' then some (.objJ [], r3)
          else (parseJObj fuel (c2 :: r3)).map (fun p => (.objJ p.1, p.2))
        | [] => none
      else if chStarts ['t', 'r', 'u', 'e'] (c :: rest) then
        some (.boolJ true, (c :: rest).drop 4)
      else if chStarts ['f', 'a', 'l', 's', 'e'] (c :: rest) then
        some (.boolJ false, (c :: rest).drop 5)
      else if chStarts ['n', 'u', 'l', 'l'] (c :: rest) then
        some (.nullJ, (c :: rest).drop 4)
      else
        (parseJNum (c :: rest)).map (fun p => (.numJ p.1, p.2))

/-- Parse the comma-separated items of a nonempty JSON array, including
the closing bracket. -/
def parseJArr : Nat → List Char → Option (List Json × List Char)
  | 0, _ => none
  | fuel + 1, cs =>
    match parseJVal fuel cs with
    | none => none
    | some (v, rest) =>
      match skipWs rest with
      | c :: r2 =>
        if c == ',' then
          match parseJArr fuel r2 with
          | some (vs, r3) => some (v :: vs, r3)
          | none => none
        else if c == ']' then some ([v], r2)
        else none
      | [] => none

/-- Parse the members of a nonempty JSON object, including the closing
brace. -/
def parseJObj : Nat → List Char → Option (List (String × Json) × List Char)
  | 0, _ => none
  | fuel + 1, cs =>
    match skipWs cs with
    | c :: rest =>
      if c == '"' then
        match parseJStr (rest.length + 1) rest with
        | some (k, r2) =>
          match skipWs r2 with
          | c2 :: r3 =>
            if c2 == ':' then
              match parseJVal fuel r3 with
              | some (v, r4) =>
                match skipWs r4 with
                | c3 :: r5 =>
                  if c3 == ',' then
                    match parseJObj fuel r5 with
                    | some (kvs, r6) => some ((⟨k⟩, v) :: kvs, r6)
                    | none => none
                  else if c3 == '}' then some ([(⟨k⟩, v)], r5)
                  else none
                | [] => none
              | none => none
            else none
          | [] => none
        | none => none
      else none
    | [] => none

end

/-- Embedding of `json.loads`: parse a complete JSON document (trailing
whitespace allowed); `none` models a raised `JSONDecodeError`. -/
def json_loads (s : String) : Option Json :=
  match parseJVal (s.data.length + 1) s.data with
  | some (j, rest) => if (skipWs rest).isEmpty then some j else none
  | none => none

/-! ## data-analyzer-lambda -/

namespace Analyzer

/-- Environment default `BUCKET_NAME` of the analyzer; the variable is
environment-supplied and modelled as a fixed name. -/
def BUCKET_NAME : String := "health-data-bucket"

/-- Environment default `PROCESSED_PREFIX`. -/
def PROCESSED_DIR : String := "processed/"

/-- Environment default `ANALYSIS_PREFIX`. -/
def ANALYSIS_DIR : String := "analyzed/"

/-- Environment default `MARKERS_PREFIX`. -/
def MARKERS_DIR : String := "markers/"

/-- Embedding of the analyzer `marker_key` (lines 59–61). -/
def marker_key (bucket key version_id : String) : String :=
  MARKERS_DIR ++ bucket ++ "__" ++ strReplace key "/" "__" ++ "__" ++ version_id ++ ".done"

/-- A row of the analyzer after its per-field `int(...)` / `float(...)`
casts have succeeded.  This is an abstraction: the analyzer really reads
string rows and casts at each use, and the casts can raise — the
validator accepts float-strings for integer fields (`int(float("75.5"))`
is 75) and writes them verbatim, while the analyzer's `int("75.5")`
raises `ValueError`.  The faithful string-level detection pass is
`detect_anomalies` below; the batch-handler model uses `ARow` rows,
whose claims do not turn on cast failures. -/
structure ARow where
  event_time : String
  user_id : String
  heart_rate : Int
  spo2 : Int
  steps : Int
  temp_c : Dec
  systolic_bp : Int
  diastolic_bp : Int
deriving DecidableEq

/-- One anomaly finding as appended by `detect_anomalies`. -/
structure Finding where
  event_time : String
  user_id : String
  heart_rate : Int
  spo2 : Int
  steps : Int
  temp_c : Dec
  systolic_bp : Int
  diastolic_bp : Int
  anomaly : String
deriving DecidableEq

/-- The `anomaly_reasons` list built from the five cast values by the
four threshold rules, in rule-declaration order (lines 86–93). -/
def anomaly_reasons_vals (hr spo2 : Int) (temp : Dec) (sysv diav : Int) : List String :=
  (if hr < 60 ∨ hr > 160 then ["Abnormal heart rate"] else []) ++
  (if spo2 < 92 then ["Low SpO2"] else []) ++
  (if Dec.lt ⟨380, 1⟩ temp then ["High temperature"] else []) ++
  (if sysv > 140 ∨ diav > 90 then ["High blood pressure"] else [])

/-- The reason list of an already-cast row. -/
def anomaly_reasons (row : ARow) : List String :=
  anomaly_reasons_vals row.heart_rate row.spo2 row.temp_c
    row.systolic_bp row.diastolic_bp

/-- The finding dict appended for a row with a nonempty reason list
(lines 95–106). -/
def mkFinding (row : ARow) : Finding :=
  { event_time := row.event_time, user_id := row.user_id,
    heart_rate := row.heart_rate, spo2 := row.spo2, steps := row.steps,
    temp_c := row.temp_c, systolic_bp := row.systolic_bp,
    diastolic_bp := row.diastolic_bp,
    anomaly := joinSep ", " (anomaly_reasons row) }

/-- The loop body of the detection pass over already-cast rows: append a
finding exactly when the reason list is nonempty
(`if anomaly_reasons:` in the source). -/
def detectStep (anomalies : List Finding) (row : ARow) : List Finding :=
  if (anomaly_reasons row).isEmpty then anomalies
  else anomalies ++ [mkFinding row]

/-- The detection pass over already-cast rows, used by the batch-handler
model (whose claims do not exercise cast failures).  The faithful
string-level embedding of `detect_anomalies`, casts included, is
`detect_anomalies` below. -/
def detect_findings (rows : List ARow) : List Finding :=
  rows.foldl detectStep []

/-- Embedding of Python `int(str)` on optionally signed decimal integer
literals — the only integer syntax this pipeline produces.  Note it
rejects float-strings such as "75.5", which `int(float(...))` in the
validator accepts. -/
def parse_int_py (s : String) : Option Int :=
  let signRest : Int × List Char :=
    match s.data with
    | c :: rest =>
      if c == '-' then (-1, rest)
      else if c == '+' then (1, rest)
      else (1, s.data)
    | [] => (1, [])
  if signRest.2 ≠ [] ∧ allDigits signRest.2 then
    some (signRest.1 * Int.ofNat (digitsToNat signRest.2))
  else none

/-- `row[f]` on a reader dict: a missing key raises `KeyError`. -/
def row_item (row : Ingestor.Row) (f : String) : Except String String :=
  match Ingestor.rowGet row f with
  | none => .error "KeyError"
  | some s => .ok s

/-- Python `int(s)`: raises `ValueError` on anything but an integer
literal. -/
def py_int (s : String) : Except String Int :=
  match parse_int_py s with
  | none => .error "ValueError"
  | some n => .ok n

/-- Python `float(s)`: raises `ValueError` when the literal does not
parse. -/
def py_float (s : String) : Except String Dec :=
  match Ingestor.parse_float s with
  | none => .error "ValueError"
  | some d => .ok d

/-- The body of the `detect_anomalies` loop for one row (lines 78–106),
casts included, in source evaluation order: `int`/`float` casts of the
five rule fields, the rule checks, and — only for a row with reasons —
the finding dict whose construction reads `event_time`, `user_id` and
casts `steps`.  `Except.error` models a raised exception. -/
def detect_row (row : Ingestor.Row) : Except String (Option Finding) :=
  Except.bind (row_item row "heart_rate") fun s1 =>
  Except.bind (py_int s1) fun hr =>
  Except.bind (row_item row "spo2") fun s2 =>
  Except.bind (py_int s2) fun spo2 =>
  Except.bind (row_item row "temp_c") fun s3 =>
  Except.bind (py_float s3) fun temp =>
  Except.bind (row_item row "systolic_bp") fun s4 =>
  Except.bind (py_int s4) fun sysv =>
  Except.bind (row_item row "diastolic_bp") fun s5 =>
  Except.bind (py_int s5) fun diav =>
  if (anomaly_reasons_vals hr spo2 temp sysv diav).isEmpty then .ok none
  else
    Except.bind (row_item row "event_time") fun et =>
    Except.bind (row_item row "user_id") fun uid =>
    Except.bind (row_item row "steps") fun s6 =>
    Except.bind (py_int s6) fun stp =>
    .ok (some
      { event_time := et, user_id := uid, heart_rate := hr, spo2 := spo2,
        steps := stp, temp_c := temp, systolic_bp := sysv,
        diastolic_bp := diav,
        anomaly := joinSep ", " (anomaly_reasons_vals hr spo2 temp sysv diav) })

/-- Embedding of `detect_anomalies` (lines 76–107) over the string rows
the analyzer really reads: one pass in row order, aborting with the
raised exception of the first row whose casts fail. -/
def detect_anomalies : List Ingestor.Row → Except String (List Finding)
  | [] => .ok []
  | row :: rest =>
    Except.bind (detect_row row) fun f? =>
    Except.bind (detect_anomalies rest) fun fs =>
    .ok (match f? with | some f => f :: fs | none => fs)

/-- All casts of one row, in the detection pass's field order; succeeds
exactly on the rows whose fields the analyzer's conversions accept. -/
def cast_row (row : Ingestor.Row) : Except String ARow :=
  Except.bind (row_item row "heart_rate") fun s1 =>
  Except.bind (py_int s1) fun hr =>
  Except.bind (row_item row "spo2") fun s2 =>
  Except.bind (py_int s2) fun spo2 =>
  Except.bind (row_item row "temp_c") fun s3 =>
  Except.bind (py_float s3) fun temp =>
  Except.bind (row_item row "systolic_bp") fun s4 =>
  Except.bind (py_int s4) fun sysv =>
  Except.bind (row_item row "diastolic_bp") fun s5 =>
  Except.bind (py_int s5) fun diav =>
  Except.bind (row_item row "event_time") fun et =>
  Except.bind (row_item row "user_id") fun uid =>
  Except.bind (row_item row "steps") fun s6 =>
  Except.bind (py_int s6) fun stp =>
  .ok { event_time := et, user_id := uid, heart_rate := hr, spo2 := spo2,
        steps := stp, temp_c := temp, systolic_bp := sysv, diastolic_bp := diav }

/-- All casts of a row list. -/
def cast_rows : List Ingestor.Row → Except String (List ARow)
  | [] => .ok []
  | row :: rest =>
    Except.bind (cast_row row) fun v =>
    Except.bind (cast_rows rest) fun vs =>
    .ok (v :: vs)

/-- The dict returned by `analyze_with_llm` on success. -/
structure LlmResult where
  insights : Json
  recommendations : Json
  summary : Json

/-- The markdown code-fence marker. -/
def fence : String := "```"

/-- Embedding of the fence-stripping step of `analyze_with_llm`
(lines 184–185): only applied when the text starts with a json fence. -/
def strip_fences (output_text : String) : String :=
  if strStartsWith output_text (fence ++ "json") then
    strTrim (strReplace (strReplace output_text (fence ++ "json") "") fence "")
  else output_text

/-- `result.get(k)` on a parsed JSON object. -/
def dict_get (kvs : List (String × Json)) (k : String) : Option Json :=
  (kvs.find? (fun p => p.1 == k)).map (fun p => p.2)

/-- Whether a text parses as the expected JSON shape — a JSON object.
When false, `analyze_with_llm` raises: `JSONDecodeError` when
`json.loads` fails, `AttributeError` when the document is valid JSON but
not an object (so `result.get` does not exist). -/
def parses_as_object (t : String) : Bool :=
  match json_loads t with
  | some (.objJ _) => true
  | _ => false

/-- Embedding of `analyze_with_llm` (lines 134–209) after the Bedrock
invocation.  The argument is the outcome of the external call together
with the extraction `payload["output"]["message"]["content"][0]["text"]`
(`Except.error` when that raised).  Statistics and the prompt feed only
the prompt text and are not modelled; the structural part is the fence
stripping followed by `json.loads(output_text)`, which has no exception
handler: a parse failure raises `JSONDecodeError`, and a document that is
not an object makes `result.get` raise `AttributeError`; both propagate
to the caller. -/
def analyze_with_llm (bedrock_text : Except String String) : Except String LlmResult :=
  match bedrock_text with
  | .error e => .error e
  | .ok output_text =>
    match json_loads (strip_fences output_text) with
    | none => .error "JSONDecodeError"
    | some (.objJ kvs) =>
      .ok { insights := (dict_get kvs "insights").getD (.arrJ [])
          , recommendations := (dict_get kvs "recommendations").getD (.arrJ [])
          , summary := (dict_get kvs "summary").getD (.strJ "Analysis completed.") }
    | some _ => .error "AttributeError"

end Analyzer

/-! ### The object store

Both lambdas share one S3 abstraction: a map from (bucket, key) to an
object body.  Bodies are modelled at the level at which the lambdas read
them back. -/

/-- Contents of a stored object: the empty idempotency-marker body, a raw
CSV of string rows, a processed CSV abstracted as rows whose casts
succeed (the batch-handler claims do not exercise cast failures; the
cast-level behavior is settled against `Analyzer.detect_anomalies`), or
an opaque document body (manifest / analysis JSON, which no claim reads
back). -/
inductive ObjContent where
  | markerC : ObjContent
  | csvStr : List Ingestor.Row → ObjContent
  | csvNum : List Analyzer.ARow → ObjContent
  | doc : String → ObjContent

/-- The object store. -/
structure S3 where
  objs : List ((String × String) × ObjContent)

/-- Look an object up; a later `put` shadows an earlier one. -/
def S3.find (st : S3) (b k : String) : Option ObjContent :=
  (st.objs.find? (fun e => e.1.1 == b && e.1.2 == k)).map (fun e => e.2)

/-- Embedding of `object_exists` (a `head_object` probe), identical in
both lambdas. -/
def object_exists (st : S3) (b k : String) : Bool := (S3.find st b k).isSome

/-- Embedding of `put_object`. -/
def S3.put (st : S3) (b k : String) (c : ObjContent) : S3 :=
  ⟨((b, k), c) :: st.objs⟩

/-! ## data-ingestor-lambda: handler -/

namespace Ingestor

/-- Environment-supplied `BUCKET_NAME` of the ingestor, modelled as a
fixed name. -/
def BUCKET_NAME : String := "health-data-bucket"

/-- One record of an S3 notification event, after the handler has
normalized the trigger shapes (lines 104–113): `versionId` is the
optional `rec["s3"]["object"].get("versionId", "null")`. -/
structure IRec where
  bucket : String
  key : String
  versionId : Option String
deriving DecidableEq

/-- Externally visible operations of one ingestor unit of work. -/
inductive IEffect where
  | getObj : String → String → IEffect
  | putObj : String → String → IEffect
deriving DecidableEq

/-- `get_object` + `csv.DictReader` over the body (lines 135–137):
absent key raises; a non-CSV body yields no data rows. -/
def get_csv_rows (st : S3) (bucket key : String) : Except String (List Row) :=
  match S3.find st bucket key with
  | none => .error "NoSuchKey"
  | some (.csvStr rows) => .ok rows
  | some _ => .ok []

/-- Embedding of the body of the ingestor record loop
(lambda_handler, lines 115–190) for a single record: the idempotency
check, the raw-prefix filter, then the guarded read / validate /
partition / write sequence whose exceptions are caught per record.
The result is the new store and the trace of S3 data operations
(the `head_object` existence probe is read-only and not traced). -/
def process_record (st : S3) (rec : IRec) : S3 × List IEffect :=
  let version_id := rec.versionId.getD "null"
  let mkey := marker_key rec.bucket rec.key version_id
  if object_exists st BUCKET_NAME mkey then (st, [])
  else if !strStartsWith rec.key RAW_DIR then (st, [])
  else
    match get_csv_rows st rec.bucket rec.key with
    | .error _ => (st, [.getObj rec.bucket rec.key])
    | .ok rows =>
      let valid_rows := rows.filter (fun r => (validate_row r).1)
      let reject_rows :=
        (rows.filter (fun r => !(validate_row r).1)).map
          (fun r => r ++ [("reject_reason", (validate_row r).2)])
      let base := basename rec.key
      let processed_key := PROCESSED_DIR ++ base
      let rejected_key := REJECTED_DIR ++ strReplace base ".csv" "" ++ "_rejected.csv"
      let manifest_key := PROCESSED_DIR ++ strReplace base ".csv" "" ++ "_manifest.json"
      let st1 :=
        if valid_rows.isEmpty then st
        else S3.put st BUCKET_NAME processed_key (.csvStr valid_rows)
      let st2 :=
        if reject_rows.isEmpty then st1
        else S3.put st1 BUCKET_NAME rejected_key (.csvStr reject_rows)
      let st3 := S3.put st2 BUCKET_NAME manifest_key (.doc "manifest")
      let st4 := S3.put st3 BUCKET_NAME mkey .markerC
      (st4,
       [.getObj rec.bucket rec.key] ++
       (if valid_rows.isEmpty then [] else [.putObj BUCKET_NAME processed_key]) ++
       (if reject_rows.isEmpty then [] else [.putObj BUCKET_NAME rejected_key]) ++
       [.putObj BUCKET_NAME manifest_key, .putObj BUCKET_NAME mkey])

/-- The ingestor record loop over a whole event. -/
def lambda_handler : S3 → List IRec → S3 × List IEffect
  | st, [] => (st, [])
  | st, r :: rest =>
    let p := process_record st r
    let q := lambda_handler p.1 rest
    (q.1, p.2 ++ q.2)

end Ingestor

/-! ## data-analyzer-lambda: handler -/

namespace Analyzer

/-- One record of the analyzer trigger after event normalization
(lines 272–287). -/
structure SRec where
  bucket : String
  key : String
  versionId : Option String
deriving DecidableEq

/-- The external summarizer capability, per object key: the outcome of
the Bedrock call and payload extraction for the unit reading that key. -/
structure AEnv where
  bedrock : String → Except String String

/-- Embedding of `csv_to_dicts` (lines 70–74): absent key raises, a
non-CSV body yields no data rows. -/
def csv_to_dicts (st : S3) (bucket key : String) : Except String (List ARow) :=
  match S3.find st bucket key with
  | none => .error "NoSuchKey"
  | some (.csvNum rows) => .ok rows
  | some _ => .ok []

/-- The EventBridge detail payloads built at lines 363–372 (success) and
385–391 (failure). -/
structure EBDetail where
  detailType : String
  correlation_id : String
  bucket : String
  source_key : String
  status : String
  analysis_key : Option String := none
  row_count : Option Nat := none
  anomaly_count : Option Nat := none
  summary : Option Json := none
  error : Option String := none

/-- Externally visible operations of one analyzer unit of work. -/
inductive Effect where
  | getObj : String → String → Effect
  | putObj : String → String → Effect
  | ddbPut : String → Effect
  | ebPut : EBDetail → Effect

/-- The failure completion event (the `bucket` field carries the source
record's bucket). -/
def failed_detail (corr bucket key e : String) : EBDetail :=
  { detailType := "Data Analysis Failed", correlation_id := corr,
    bucket := bucket, source_key := key, status := "failed", error := some e }

/-- The success completion event (the `bucket` field carries
`BUCKET_NAME`). -/
def success_detail (corr key akey : String) (rows anoms : Nat) (s : Json) : EBDetail :=
  { detailType := "Data Analysis Complete", correlation_id := corr,
    bucket := BUCKET_NAME, source_key := key, status := "success",
    analysis_key := some akey, row_count := some rows,
    anomaly_count := some anoms, summary := some s }

/-- One entry of the batch result list (lines 303, 309, 316, 375–381,
392). -/
structure ResultEntry where
  correlation_id : String
  status : String
  reason : Option String := none
  error : Option String := none
  analysis_key : Option String := none
  rows_analyzed : Option Nat := none
  anomalies_detected : Option Nat := none
deriving DecidableEq

/-- Embedding of the analyzer record loop body (lambda_handler,
lines 291–393) for one unit of work: idempotency check, prefix filter,
then the try block — read rows, detect anomalies, summarize, persist to
DynamoDB and S3, write the marker, publish the completion event — whose
exceptions are caught per unit and turned into a failed entry plus a
failure event.  The DynamoDB put and the event publish are modelled as
succeeding (`send_event_to_eventbridge` swallows its own errors in the
source); the analysis JSON body is stored opaquely since nothing reads
it back. -/
def process_record (env : AEnv) (st : S3) (correlation_id : Option String)
    (rec : SRec) : S3 × List Effect × ResultEntry :=
  let version_id := rec.versionId.getD "null"
  let corr_id := correlation_id.getD (rec.bucket ++ "/" ++ rec.key ++ "@" ++ version_id)
  let mkey := marker_key rec.bucket rec.key version_id
  if object_exists st BUCKET_NAME mkey then
    (st, [],
     { correlation_id := corr_id, status := "skipped", reason := some "already_analyzed" })
  else if !strStartsWith rec.key PROCESSED_DIR then
    (st, [],
     { correlation_id := corr_id, status := "skipped", reason := some "non_processed_prefix" })
  else
    match csv_to_dicts st rec.bucket rec.key with
    | .error e =>
      (st, [.getObj rec.bucket rec.key, .ebPut (failed_detail corr_id rec.bucket rec.key e)],
       { correlation_id := corr_id, status := "failed", error := some e })
    | .ok rows =>
      if rows.isEmpty then
        (st, [.getObj rec.bucket rec.key],
         { correlation_id := corr_id, status := "skipped", reason := some "no_data" })
      else
        let anomalies := detect_findings rows
        match analyze_with_llm (env.bedrock rec.key) with
        | .error e =>
          (st, [.getObj rec.bucket rec.key, .ebPut (failed_detail corr_id rec.bucket rec.key e)],
           { correlation_id := corr_id, status := "failed", error := some e })
        | .ok llm =>
          let analysis_key := ANALYSIS_DIR ++ strReplace (basename rec.key) ".csv" "" ++ "_analysis.json"
          let st1 := S3.put (S3.put st BUCKET_NAME analysis_key (.doc "analysis"))
            BUCKET_NAME mkey .markerC
          (st1,
           [.getObj rec.bucket rec.key, .ddbPut corr_id, .putObj BUCKET_NAME analysis_key,
            .putObj BUCKET_NAME mkey,
            .ebPut (success_detail corr_id rec.key analysis_key rows.length anomalies.length llm.summary)],
           { correlation_id := corr_id, status := "success",
             analysis_key := some analysis_key, rows_analyzed := some rows.length,
             anomalies_detected := some anomalies.length })

/-- The analyzer record loop over a whole batch: units are processed
sequentially and independently; every unit contributes exactly one
result entry. -/
def lambda_handler (env : AEnv) (correlation_id : Option String) :
    S3 → List SRec → S3 × List Effect × List ResultEntry
  | st, [] => (st, [], [])
  | st, r :: rest =>
    let p := process_record env st correlation_id r
    let q := lambda_handler env correlation_id p.1 rest
    (q.1, p.2.1 ++ q.2.1, p.2.2 :: q.2.2)

end Analyzer

/-! ## notifier-lambda -/

namespace Notifier

/-- A Python value as stored in / fetched from DynamoDB, as far as the
notifier inspects it (`isinstance` dispatch on dict and str). -/
inductive DVal where
  | strD : String → DVal
  | numD : Dec → DVal
  | boolD : Bool → DVal
  | noneD : DVal
  | listD : List DVal → DVal
  | dictD : List (String × DVal) → DVal

/-- Python truthiness of a `DVal`. -/
def DVal.truthy : DVal → Bool
  | .strD s => !(s == "")
  | .numD d => !(d.num == 0)
  | .boolD b => b
  | .noneD => false
  | .listD l => !l.isEmpty
  | .dictD l => !l.isEmpty

/-- `d.get(k)` on a dict value. -/
def dval_get (entries : List (String × DVal)) (k : String) : Option DVal :=
  (entries.find? (fun p => p.1 == k)).map (fun p => p.2)

/-- An `AnalysisResult` item as the notifier fetches it from DynamoDB;
only the fields the claims read are carried, each optional since the
source accesses them through `.get` with a default. -/
structure Item where
  insights : Option (List String) := none
  recommendations : Option (List String) := none
  summary : Option DVal := none

/-- Embedding of `extract_insights_and_recommendations`
(notifier-lambda/lambda_function.py, lines 156–175): only the most
recent item (the first of the sorted list) contributes, via
`.get("insights", [])` and `.get("recommendations", [])`. -/
def extract_insights_and_recommendations (items : List Item) :
    List String × List String :=
  match items with
  | [] => ([], [])
  | most_recent :: _ =>
    (most_recent.insights.getD [], most_recent.recommendations.getD [])

/-- The per-item body of `format_executive_summary` (lines 180–205),
producing `text_summary`; `Except.error` models a raised exception
(`health_status.strip()` on a truthy non-string raises
`AttributeError`). -/
def summary_text (summary_val : DVal) : Except String String :=
  match summary_val with
  | .dictD entries =>
    let health_status := (dval_get entries "health_status").getD (.strD "")
    let key_findings := (dval_get entries "key_findings").getD (.dictD [])
    let findings_texts :=
      match key_findings with
      | .dictD kf =>
        kf.filterMap (fun (p : String × DVal) =>
          match p.2 with | .strD s => some s | _ => none)
      | _ => []
    match
      (if health_status.truthy then
        match health_status with
        | .strD s => Except.ok (strTrim s)
        | _ => Except.error "AttributeError"
      else Except.ok "") with
    | .error e => .error e
    | .ok t1 =>
      .ok (if findings_texts.isEmpty then t1
           else t1 ++ " Key findings: " ++ joinSep " " (findings_texts.map strTrim))
  | .strD s => .ok (strTrim s)
  | _ => .ok ""

/-- The loop of `format_executive_summary`: collect the nonempty,
non-placeholder `text_summary` values in item order
(`item.get("summary", {})` supplies the dict default). -/
def collect_summaries : List Item → Except String (List String)
  | [] => .ok []
  | item :: rest =>
    match summary_text (item.summary.getD (.dictD [])) with
    | .error e => .error e
    | .ok t =>
      match collect_summaries rest with
      | .error e => .error e
      | .ok ts =>
        .ok (if !(t == "") && !(t == "Analysis completed.") then t :: ts else ts)

/-- Embedding of `format_executive_summary` (lines 177–211): the default
sentence when nothing was collected, otherwise the newline join of the
first collected summary only. -/
def format_executive_summary (items : List Item) : Except String String :=
  match collect_summaries items with
  | .error e => .error e
  | .ok summaries =>
    if summaries.isEmpty then
      .ok "Health data analysis completed successfully. Regular monitoring continues."
    else .ok (joinSep "\n" (summaries.take 1))

/-- The `text_summary` value the dict branch of `summary_text` produces
once `health_status` has been resolved to the string `t1`: the findings
suffix is appended when any string-valued finding exists. -/
def dictFindingsText (entries : List (String × DVal)) (t1 : String) : String :=
  let findings_texts :=
    match (dval_get entries "key_findings").getD (.dictD []) with
    | .dictD kf =>
      kf.filterMap (fun (p : String × DVal) =>
        match p.2 with | .strD s => some s | _ => none)
    | _ => []
  if findings_texts.isEmpty then t1
  else t1 ++ " Key findings: " ++ joinSep " " (findings_texts.map strTrim)

/-- The summary shapes named by the spec: a plain string (which covers
JSON text, fenced or not), or a structured object whose `health_status`
member, when present, is a string. -/
def goodSummaryShape : DVal → Bool
  | .strD _ => true
  | .dictD entries =>
    match dval_get entries "health_status" with
    | none => true
    | some (.strD _) => true
    | some _ => false
  | _ => false

end Notifier

/-! ### Concrete instances used by the claims -/

namespace Analyzer

/-- Validated row with heart_rate 165 and spo2 85 (and the other fields
normal). -/
def exAnomRow : ARow :=
  { event_time := "t1", user_id := "u1", heart_rate := 165, spo2 := 85,
    steps := 1000, temp_c := ⟨365, 1⟩, systolic_bp := 120, diastolic_bp := 80 }

/-- Validated row triggering no rule (heart_rate 75, spo2 98,
temp 36.5, bp 120/80). -/
def exNormalRow : ARow :=
  { event_time := "t2", user_id := "u2", heart_rate := 75, spo2 := 98,
    steps := 1000, temp_c := ⟨365, 1⟩, systolic_bp := 120, diastolic_bp := 80 }

/-- Unit 1 of the example batch. -/
def recA : SRec := { bucket := BUCKET_NAME, key := "processed/a.csv", versionId := some "v1" }

/-- Unit 2 of the example batch (its summarizer call raises). -/
def recB : SRec := { bucket := BUCKET_NAME, key := "processed/b.csv", versionId := some "v1" }

/-- Unit 3 of the example batch. -/
def recC : SRec := { bucket := BUCKET_NAME, key := "processed/c.csv", versionId := some "v1" }

/-- Store holding the three processed CSVs of the example batch and no
markers. -/
def stBatch : S3 :=
  ⟨[((BUCKET_NAME, "processed/a.csv"), .csvNum [exNormalRow]),
    ((BUCKET_NAME, "processed/b.csv"), .csvNum [exNormalRow]),
    ((BUCKET_NAME, "processed/c.csv"), .csvNum [exAnomRow])]⟩

/-- Summarizer oracle of the example batch: raises for unit 2, returns
the JSON object text for the others. -/
def envBatch : AEnv :=
  { bedrock := fun k =>
      if k == "processed/b.csv" then .error "boom" else .ok "\x7b\x7d" }

/-- Summarizer oracle whose response text is not JSON. -/
def envBadJson : AEnv := { bedrock := fun _ => .ok "not json" }

/-- Summarizer oracle whose response text is valid JSON but not an
object (a JSON array), triggering the `AttributeError` mode. -/
def envArrJson : AEnv := { bedrock := fun _ => .ok "[1]" }

/-- The string form of `exAnomRow` as the processed CSV holds it. -/
def exAnomRowS : Ingestor.Row :=
  [("event_time", "t1"), ("user_id", "u1"), ("heart_rate", "165"),
   ("spo2", "85"), ("steps", "1000"), ("temp_c", "36.5"),
   ("systolic_bp", "120"), ("diastolic_bp", "80")]

/-- The string form of `exNormalRow`. -/
def exNormalRowS : Ingestor.Row :=
  [("event_time", "t2"), ("user_id", "u2"), ("heart_rate", "75"),
   ("spo2", "98"), ("steps", "1000"), ("temp_c", "36.5"),
   ("systolic_bp", "120"), ("diastolic_bp", "80")]

/-- A row the validator accepts (`int(float("75.5"))` is 75, in range)
whose heart_rate is a float-string, on which the analyzer's `int(...)`
cast raises. -/
def rowFloatHr : Ingestor.Row :=
  [("event_time", "t3"), ("user_id", "u3"), ("heart_rate", "75.5"),
   ("spo2", "98"), ("steps", "1000"), ("temp_c", "36.5"),
   ("systolic_bp", "120"), ("diastolic_bp", "80")]

end Analyzer

namespace Ingestor

/-- A store already holding the idempotency marker for
`("b", "raw/x.csv", "v1")`. -/
def stMarked : S3 := ⟨[((BUCKET_NAME, marker_key "b" "raw/x.csv" "v1"), .markerC)]⟩

/-- The matching ingestor record. -/
def irecA : IRec := { bucket := "b", key := "raw/x.csv", versionId := some "v1" }

end Ingestor

namespace Notifier

/-- Most recent analysis item of the aggregation example. -/
def itemA : Item := { insights := some ["A1"], recommendations := some ["R1"] }

/-- Older analysis item of the aggregation example, with distinct
fields. -/
def itemB : Item := { insights := some ["A2"], recommendations := some ["R2"] }

/-- Item whose fields contain the placeholder sentinels. -/
def itemSent : Item :=
  { insights := some ["No major trends observed", "A3"],
    recommendations := some ["No recommendations"] }

/-- The placeholder sentinels named by the spec. -/
def SENTINELS : List String :=
  ["No major trends observed", "No recommendations", "Analysis completed."]

/-- Fuel-driven order-preserving deduplication (first occurrence kept). -/
def dedupKeepFirstF : Nat → List String → List String
  | _, [] => []
  | 0, l => l
  | fuel + 1, x :: xs => x :: dedupKeepFirstF fuel (xs.filter (fun y => !(y == x)))

/-- Order-preserving deduplication, first occurrence kept. -/
def dedupKeepFirst (l : List String) : List String := dedupKeepFirstF l.length l

/-- Modelled from the spec (§4.5): the deduplicated, order-preserving,
sentinel-free union of the field lists across the selected records —
the reference against which the code's extraction is compared. -/
def specUnion (ls : List (List String)) : List String :=
  dedupKeepFirst (ls.flatten.filter (fun s => !(SENTINELS.contains s)))

/-- §8 structured-object summary input. -/
def itemStructured : Item :=
  { summary := some (.dictD
      [("health_status", .strD "stable"),
       ("key_findings", .dictD [("a", .strD "x"), ("b", .strD "y")])]) }

/-- §8 plain-string summary input. -/
def itemPlain : Item := { summary := some (.strD "plain text summary") }

/-- §8 fenced JSON-text summary input. -/
def fencedText : String := "```json\n\x7b\"summary\":\"z\"\x7d\n```"

/-- Item carrying the fenced JSON text as its summary. -/
def itemFenced : Item := { summary := some (.strD fencedText) }

end Notifier

end HealthPipeline

section ValidatorLemmas

open HealthPipeline HealthPipeline.Ingestor

/-- When every required field of a row is truthy, the presence scan of
`validate_row` finds no failing field. -/
theorem find_none_of_all_truthy (row : Row)
    (hall : REQUIRED_FIELDS.all (fun f => truthy (rowGet row f)) = true) :
    REQUIRED_FIELDS.find? (fun f => !truthy (rowGet row f)) = none := by
  rw [List.find?_eq_none]
  intro x hx
  have hx2 := List.all_eq_true.mp hall x hx
  simp [hx2]

/-- `find?` returns the element at the first index satisfying the
predicate. -/
theorem find_eq_get_of_first {α : Type} (p : α → Bool) :
    ∀ (l : List α) (i : Nat) (hi : i < l.length), p (l.get ⟨i, hi⟩) = true →
      (∀ (j : Nat) (hj : j < l.length), j < i → p (l.get ⟨j, hj⟩) = false) →
      l.find? p = some (l.get ⟨i, hi⟩)
  | [], i, hi => by simp at hi
  | a :: l, 0, _ => by
    intro h _
    simp only [List.get] at h
    simp [List.find?_cons_of_pos, h]
  | a :: l, i + 1, hi => by
    intro h hj
    have ha : p a = false := hj 0 (by simp) (by omega)
    rw [List.find?_cons_of_neg _ (by simp [ha])]
    exact find_eq_get_of_first p l i
      (by simp only [List.length_cons] at hi; omega) h
      (fun j hjl hlt =>
        hj (j + 1) (by simp only [List.length_cons]; omega) (by omega))

/-- Destructor for a passing combined integer check. -/
theorem intOk_true {v : Option Int} {bounds : Int × Int}
    (h : intOk v bounds = true) :
    ∃ x, v = some x ∧ bounds.1 ≤ x ∧ x ≤ bounds.2 := by
  cases v with
  | none => simp [intOk] at h
  | some x =>
    have h2 : bounds.1 ≤ x ∧ x ≤ bounds.2 := by
      simpa [intOk, Bool.and_eq_true, decide_eq_true_iff] using h
    exact ⟨x, rfl, h2.1, h2.2⟩

/-- Destructor for a true `dbp > sbp` comparison. -/
theorem optGtInt_true {d s : Option Int} (h : optGtInt d s = true) :
    ∃ dv sv, d = some dv ∧ s = some sv ∧ sv < dv := by
  cases d with
  | none => simp [optGtInt] at h
  | some dv =>
    cases s with
    | none => simp [optGtInt] at h
    | some sv =>
      exact ⟨dv, sv, rfl, rfl, by simpa [optGtInt, decide_eq_true_iff] using h⟩

/-- A presence reason code never collides with the cross-field code. -/
theorem missing_ne_dbp (f : String) : "missing_" ++ f ≠ "dbp_gt_sbp" := by
  intro h
  have h2 : ("missing_" ++ f).data = "dbp_gt_sbp".data := by rw [h]
  simp [String.data_append] at h2

end ValidatorLemmas

section ValidatorClaims

open HealthPipeline HealthPipeline.Ingestor

/-- C2 counterexample: in `rowHrSp`, heart_rate parses (to 200, out of
range) and the later field spo2 fails to parse; the returned reason is
`invalid_heart_rate`, not `invalid_spo2` as the claim requires. -/
theorem C2_counterexample :
    parse_int "200" = some 200 ∧ ¬((200 : Int) ≤ 180) ∧
    parse_int "abc" = none ∧
    validate_row rowHrSp = (false, "invalid_heart_rate") ∧
    validate_row rowHrSp ≠ (false, "invalid_spo2") := by decide

/-- C2 (amended): `validate_row` applies the parse check and the range
check together per field, in the fixed field order; the first field whose
combined check fails yields `invalid_<field>`, so an earlier
out-of-range field takes precedence over a later unparseable one. -/
theorem C2_theorem (row : Row)
    (hall : REQUIRED_FIELDS.all (fun f => truthy (rowGet row f)) = true) :
    (intOk (parse_int (rowv row "heart_rate")) RANGES_heart_rate = false →
      validate_row row = (false, "invalid_heart_rate")) ∧
    (intOk (parse_int (rowv row "heart_rate")) RANGES_heart_rate = true →
      intOk (parse_int (rowv row "spo2")) RANGES_spo2 = false →
      validate_row row = (false, "invalid_spo2")) ∧
    (intOk (parse_int (rowv row "heart_rate")) RANGES_heart_rate = true →
      intOk (parse_int (rowv row "spo2")) RANGES_spo2 = true →
      intOk (parse_int (rowv row "steps")) RANGES_steps = false →
      validate_row row = (false, "invalid_steps")) ∧
    (intOk (parse_int (rowv row "heart_rate")) RANGES_heart_rate = true →
      intOk (parse_int (rowv row "spo2")) RANGES_spo2 = true →
      intOk (parse_int (rowv row "steps")) RANGES_steps = true →
      decOk (parse_float (rowv row "temp_c")) RANGES_temp_c = false →
      validate_row row = (false, "invalid_temp_c")) ∧
    (intOk (parse_int (rowv row "heart_rate")) RANGES_heart_rate = true →
      intOk (parse_int (rowv row "spo2")) RANGES_spo2 = true →
      intOk (parse_int (rowv row "steps")) RANGES_steps = true →
      decOk (parse_float (rowv row "temp_c")) RANGES_temp_c = true →
      intOk (parse_int (rowv row "systolic_bp")) RANGES_systolic_bp = false →
      validate_row row = (false, "invalid_systolic_bp")) ∧
    (intOk (parse_int (rowv row "heart_rate")) RANGES_heart_rate = true →
      intOk (parse_int (rowv row "spo2")) RANGES_spo2 = true →
      intOk (parse_int (rowv row "steps")) RANGES_steps = true →
      decOk (parse_float (rowv row "temp_c")) RANGES_temp_c = true →
      intOk (parse_int (rowv row "systolic_bp")) RANGES_systolic_bp = true →
      intOk (parse_int (rowv row "diastolic_bp")) RANGES_diastolic_bp = false →
      validate_row row = (false, "invalid_diastolic_bp")) := by
  have hfind := find_none_of_all_truthy row hall
  refine ⟨?_, ?_, ?_, ?_, ?_, ?_⟩ <;>
    (intros) <;> (unfold validate_row) <;> (rw [hfind]) <;> simp_all

/-- C2 witness: the amended theorem applied to the counterexample row. -/
theorem C2_witness : validate_row rowHrSp = (false, "invalid_heart_rate") :=
  (C2_theorem rowHrSp (by decide)).1 (by decide)

/-- C9: the cross-field blood-pressure check fires only when both
blood-pressure fields individually parse and are within their ranges
(necessary conditions extracted from the `dbp_gt_sbp` outcome), and the
concrete row systolic=100 / diastolic=105 is rejected with
`dbp_gt_sbp`. -/
theorem C9_theorem :
    (∀ row : Row, validate_row row = (false, "dbp_gt_sbp") →
      ∃ s d : Int,
        parse_int (rowv row "systolic_bp") = some s ∧ 90 ≤ s ∧ s ≤ 180 ∧
        parse_int (rowv row "diastolic_bp") = some d ∧ 60 ≤ d ∧ d ≤ 120 ∧
        s < d) ∧
    validate_row rowBp = (false, "dbp_gt_sbp") := by
  constructor
  · intro row h
    unfold validate_row at h
    cases hfind : REQUIRED_FIELDS.find? (fun f => !truthy (rowGet row f)) with
    | some f =>
      rw [hfind] at h
      exact absurd (congrArg Prod.snd h) (missing_ne_dbp f)
    | none =>
      rw [hfind] at h
      split_ifs at h with h1 h2 h3 h4 h5 h6 h7
      · exact absurd h (by decide)
      · exact absurd h (by decide)
      · exact absurd h (by decide)
      · exact absurd h (by decide)
      · exact absurd h (by decide)
      · exact absurd h (by decide)
      · have hs : intOk (parse_int (rowv row "systolic_bp")) RANGES_systolic_bp = true := by
          simpa using h5
        have hd : intOk (parse_int (rowv row "diastolic_bp")) RANGES_diastolic_bp = true := by
          simpa using h6
        obtain ⟨s, hsv, hs1, hs2⟩ := intOk_true hs
        obtain ⟨d, hdv, hd1, hd2⟩ := intOk_true hd
        obtain ⟨dv, sv, hdv2, hsv2, hlt⟩ := optGtInt_true h7
        rw [hdv] at hdv2
        rw [hsv] at hsv2
        cases hdv2
        cases hsv2
        exact ⟨s, d, hsv, hs1, hs2, hdv, hd1, hd2, hlt⟩
      · exact absurd h (by decide)
  · decide

/-- C9 witness: the necessary conditions instantiated at the concrete
rejected row. -/
theorem C9_witness :
    ∃ s d : Int,
      parse_int (rowv rowBp "systolic_bp") = some s ∧ 90 ≤ s ∧ s ≤ 180 ∧
      parse_int (rowv rowBp "diastolic_bp") = some d ∧ 60 ≤ d ∧ d ≤ 120 ∧
      s < d :=
  C9_theorem.1 rowBp (by decide)

/-- C10: a required field that is present but empty (falsy) is classified
as missing: when field `i` of the schema order is mapped to the empty
string and all earlier fields are truthy, the result is
`(false, missing_<field>)`. -/
theorem C10_theorem (row : Row) (i : Nat) (hi : i < REQUIRED_FIELDS.length)
    (hempty : rowGet row (REQUIRED_FIELDS.get ⟨i, hi⟩) = some "")
    (hearlier : ∀ (j : Nat) (hj : j < REQUIRED_FIELDS.length), j < i →
      truthy (rowGet row (REQUIRED_FIELDS.get ⟨j, hj⟩)) = true) :
    validate_row row = (false, "missing_" ++ REQUIRED_FIELDS.get ⟨i, hi⟩) := by
  have hfind :
      REQUIRED_FIELDS.find? (fun f => !truthy (rowGet row f)) =
        some (REQUIRED_FIELDS.get ⟨i, hi⟩) := by
    apply find_eq_get_of_first
    · simp only [List.get_eq_getElem] at hempty ⊢
      simp [hempty, truthy]
    · intro j hjl hj
      have h2 := hearlier j hjl hj
      simp only [List.get_eq_getElem] at h2 ⊢
      simp [h2]
  unfold validate_row
  rw [hfind]

/-- C10 witness: heart_rate present as the empty string yields
`missing_heart_rate`. -/
theorem C10_witness : validate_row rowEmptyHr = (false, "missing_heart_rate") := by
  have h := C10_theorem rowEmptyHr 2 (by decide) (by decide)
    (by
      intro j hjl hj
      have hj2 : j = 0 ∨ j = 1 := by omega
      rcases hj2 with rfl | rfl
      · show truthy (rowGet rowEmptyHr "event_time") = true
        decide
      · show truthy (rowGet rowEmptyHr "user_id") = true
        decide)
  exact h.trans (by decide)

end ValidatorClaims

section AnalyzerLemmas

open HealthPipeline HealthPipeline.Analyzer

/-- A row all of whose casts succeed is detected exactly as its cast
image prescribes: no finding without reasons, one finding with the
joined reasons otherwise. -/
theorem detect_row_cast (row : Ingestor.Row) (v : ARow)
    (h : cast_row row = Except.ok v) :
    detect_row row =
      Except.ok (if (anomaly_reasons v).isEmpty then none
        else some (mkFinding v)) := by
  unfold cast_row at h
  unfold detect_row
  cases h1 : row_item row "heart_rate" with
  | error e => simp [h1, Except.bind] at h
  | ok s1 =>
  simp only [h1, Except.bind] at h ⊢
  cases h2 : py_int s1 with
  | error e => simp [h2, Except.bind] at h
  | ok hr =>
  simp only [h2, Except.bind] at h ⊢
  cases h3 : row_item row "spo2" with
  | error e => simp [h3, Except.bind] at h
  | ok s2 =>
  simp only [h3, Except.bind] at h ⊢
  cases h4 : py_int s2 with
  | error e => simp [h4, Except.bind] at h
  | ok spo2 =>
  simp only [h4, Except.bind] at h ⊢
  cases h5 : row_item row "temp_c" with
  | error e => simp [h5, Except.bind] at h
  | ok s3 =>
  simp only [h5, Except.bind] at h ⊢
  cases h6 : py_float s3 with
  | error e => simp [h6, Except.bind] at h
  | ok temp =>
  simp only [h6, Except.bind] at h ⊢
  cases h7 : row_item row "systolic_bp" with
  | error e => simp [h7, Except.bind] at h
  | ok s4 =>
  simp only [h7, Except.bind] at h ⊢
  cases h8 : py_int s4 with
  | error e => simp [h8, Except.bind] at h
  | ok sysv =>
  simp only [h8, Except.bind] at h ⊢
  cases h9 : row_item row "diastolic_bp" with
  | error e => simp [h9, Except.bind] at h
  | ok s5 =>
  simp only [h9, Except.bind] at h ⊢
  cases h10 : py_int s5 with
  | error e => simp [h10, Except.bind] at h
  | ok diav =>
  simp only [h10, Except.bind] at h ⊢
  cases h11 : row_item row "event_time" with
  | error e => simp [h11, Except.bind] at h
  | ok et =>
  simp only [h11, Except.bind] at h ⊢
  cases h12 : row_item row "user_id" with
  | error e => simp [h12, Except.bind] at h
  | ok uid =>
  simp only [h12, Except.bind] at h ⊢
  cases h13 : row_item row "steps" with
  | error e => simp [h13, Except.bind] at h
  | ok s6 =>
  simp only [h13, Except.bind] at h ⊢
  cases h14 : py_int s6 with
  | error e => simp [h14, Except.bind] at h
  | ok stp =>
  simp only [h14, Except.bind] at h ⊢
  cases h
  cases hemp : (anomaly_reasons_vals hr spo2 temp sysv diav).isEmpty with
  | true => simp [hemp, anomaly_reasons]
  | false => simp [hemp, anomaly_reasons, mkFinding]

/-- The detection pass over a list of rows whose casts all succeed is
the order-preserving filter-map of their cast images. -/
theorem detect_cast_list :
    ∀ (rows : List Ingestor.Row) (vals : List ARow),
      cast_rows rows = Except.ok vals →
      detect_anomalies rows =
        Except.ok
          ((vals.filter (fun r => !(anomaly_reasons r).isEmpty)).map mkFinding)
  | [], vals, h => by
    unfold cast_rows at h
    cases h
    rfl
  | row :: rest, vals, h => by
    unfold cast_rows at h
    unfold detect_anomalies
    cases hc : cast_row row with
    | error e => simp [hc, Except.bind] at h
    | ok v =>
      simp only [hc, Except.bind] at h
      cases hcr : cast_rows rest with
      | error e => simp [hcr, Except.bind] at h
      | ok vs =>
        simp only [hcr, Except.bind] at h
        cases h
        rw [detect_row_cast row v hc]
        rw [detect_cast_list rest vs hcr]
        simp only [Except.bind, List.filter_cons]
        cases hemp : (anomaly_reasons v).isEmpty with
        | true => simp [hemp]
        | false => simp [hemp]

end AnalyzerLemmas

section DetectClaims

open HealthPipeline HealthPipeline.Analyzer

/-- C7 counterexample: the validator accepts heart_rate "75.5"
(`int(float("75.5"))` is 75, in range) and writes the row verbatim, but
the analyzer's `int("75.5")` raises, so `detect_anomalies` raises
`ValueError` on this validated row instead of producing its findings. -/
theorem C7_counterexample :
    Ingestor.validate_row rowFloatHr = (true, "ok") ∧
    detect_anomalies [rowFloatHr] = Except.error "ValueError" :=
  ⟨by decide, rfl⟩

/-- C7 (amended): for every sequence of rows all of whose fields the
analyzer's per-field `int(...)`/`float(...)` casts accept, detect raises
nothing and produces, in input row order, exactly one finding per row
with a nonempty reason list, the reasons joined by ", " in
rule-declaration order; the example row (heart_rate "165", spo2 "85")
gives one finding with reason "Abnormal heart rate, Low SpO2", and the
normal row gives none.  (Validated rows are not all castable: see the
counterexample.) -/
theorem C7_theorem :
    (∀ (rows : List Ingestor.Row) (vals : List ARow),
      cast_rows rows = Except.ok vals →
      detect_anomalies rows =
        Except.ok
          ((vals.filter (fun r => !(anomaly_reasons r).isEmpty)).map mkFinding)) ∧
    detect_anomalies [exAnomRowS] =
      Except.ok
        [{ event_time := "t1", user_id := "u1", heart_rate := 165, spo2 := 85,
           steps := 1000, temp_c := ⟨365, 1⟩, systolic_bp := 120,
           diastolic_bp := 80, anomaly := "Abnormal heart rate, Low SpO2" }] ∧
    detect_anomalies [exNormalRowS] = Except.ok [] :=
  ⟨detect_cast_list, rfl, rfl⟩

/-- C7 witness: the castable-rows statement applied to the anomalous
example row. -/
theorem C7_witness :
    detect_anomalies [exAnomRowS] =
      Except.ok ((([exAnomRow] : List ARow).filter
        (fun r => !(anomaly_reasons r).isEmpty)).map mkFinding) :=
  C7_theorem.1 [exAnomRowS] [exAnomRow] rfl

end DetectClaims

section MarkerClaims

open HealthPipeline

/-- C5 counterexample: at a concrete unit of work both stages derive the
very same marker key — the composite of bucket, escaped key and version —
so the stages do not use different derivation strategies, and no stage
hashes the object content. -/
theorem C5_counterexample :
    Ingestor.marker_key "b" "processed/f.csv" "v7" =
      Analyzer.marker_key "b" "processed/f.csv" "v7" ∧
    Analyzer.marker_key "b" "processed/f.csv" "v7" =
      "markers/b__processed__f.csv__v7.done" := ⟨rfl, by decide⟩

/-- C5 (amended): both stages use one and the same derivation scheme, the
composite of (bucket, objectKey with slashes escaped, versionId) under
the markers area; no content-hash derivation exists in either stage. -/
theorem C5_theorem :
    ∀ bucket key version_id : String,
      Ingestor.marker_key bucket key version_id =
        Analyzer.marker_key bucket key version_id ∧
      Analyzer.marker_key bucket key version_id =
        "markers/" ++ bucket ++ "__" ++ strReplace key "/" "__" ++ "__" ++
          version_id ++ ".done" :=
  fun _ _ _ => ⟨rfl, rfl⟩

end MarkerClaims

section FailureClaims

open HealthPipeline HealthPipeline.Analyzer

/-- C1 counterexample: when the summarizer's response text does not parse
as JSON, `analyze_with_llm` raises (no degraded result is built) and the
unit is recorded as failed, not as successfully completed with
`(insights := [], recommendations := [], summary := rawText)`. -/
theorem C1_counterexample :
    analyze_with_llm (Except.ok "not json") = Except.error "JSONDecodeError" ∧
    (Analyzer.lambda_handler envBadJson none stBatch [recA]).2.2 =
      [{ correlation_id := "health-data-bucket/processed/a.csv@v1",
         status := "failed", error := some "JSONDecodeError" }] := by
  exact ⟨rfl, rfl⟩

/-- C1 (amended): after fence stripping, a response text that fails to
parse as the expected JSON object shape makes `analyze_with_llm` raise —
`JSONDecodeError` when `json.loads` fails on the text, `AttributeError`
when the text is valid JSON but not an object; the unit-level handler
catches the exception, records the unit as failed with that error text
and publishes a failure event — it does not degrade to an
empty-insights result. -/
theorem C1_theorem (env : AEnv) (st : S3) (cid : Option String) (rec : SRec)
    (t : String) (rows : List ARow)
    (hm : object_exists st Analyzer.BUCKET_NAME
      (Analyzer.marker_key rec.bucket rec.key (rec.versionId.getD "null")) = false)
    (hp : strStartsWith rec.key Analyzer.PROCESSED_DIR = true)
    (hcsv : csv_to_dicts st rec.bucket rec.key = .ok rows)
    (hne : rows.isEmpty = false)
    (hbed : env.bedrock rec.key = Except.ok t)
    (hshape : parses_as_object (strip_fences t) = false) :
    ∃ e, (e = "JSONDecodeError" ∨ e = "AttributeError") ∧
      analyze_with_llm (env.bedrock rec.key) = Except.error e ∧
      Analyzer.process_record env st cid rec =
        (st,
         [.getObj rec.bucket rec.key,
          .ebPut (failed_detail
            (cid.getD (rec.bucket ++ "/" ++ rec.key ++ "@" ++ rec.versionId.getD "null"))
            rec.bucket rec.key e)],
         { correlation_id :=
             cid.getD (rec.bucket ++ "/" ++ rec.key ++ "@" ++ rec.versionId.getD "null"),
           status := "failed", error := some e }) := by
  have hllm : ∃ e, (e = "JSONDecodeError" ∨ e = "AttributeError") ∧
      analyze_with_llm (env.bedrock rec.key) = Except.error e := by
    rw [hbed]
    cases hj : json_loads (strip_fences t) with
    | none => exact ⟨"JSONDecodeError", Or.inl rfl, by simp [analyze_with_llm, hj]⟩
    | some j =>
      cases j with
      | objJ kvs => simp [parses_as_object, hj] at hshape
      | nullJ => exact ⟨"AttributeError", Or.inr rfl, by simp [analyze_with_llm, hj]⟩
      | boolJ b => exact ⟨"AttributeError", Or.inr rfl, by simp [analyze_with_llm, hj]⟩
      | numJ d => exact ⟨"AttributeError", Or.inr rfl, by simp [analyze_with_llm, hj]⟩
      | strJ s => exact ⟨"AttributeError", Or.inr rfl, by simp [analyze_with_llm, hj]⟩
      | arrJ xs => exact ⟨"AttributeError", Or.inr rfl, by simp [analyze_with_llm, hj]⟩
  obtain ⟨e, he, hllm2⟩ := hllm
  refine ⟨e, he, hllm2, ?_⟩
  simp [Analyzer.process_record, hm, hp, hcsv, hne, hllm2]

/-- C1 witness: the amended behavior at a concrete response that is
valid JSON but not an object (the AttributeError mode). -/
theorem C1_witness :
    ∃ e, (e = "JSONDecodeError" ∨ e = "AttributeError") ∧
      analyze_with_llm (envArrJson.bedrock recA.key) = Except.error e ∧
      Analyzer.process_record envArrJson stBatch none recA =
        (stBatch,
         [.getObj recA.bucket recA.key,
          .ebPut (failed_detail
            ((none : Option String).getD
              (recA.bucket ++ "/" ++ recA.key ++ "@" ++ recA.versionId.getD "null"))
            recA.bucket recA.key e)],
         { correlation_id :=
             (none : Option String).getD
               (recA.bucket ++ "/" ++ recA.key ++ "@" ++ recA.versionId.getD "null"),
           status := "failed", error := some e }) :=
  C1_theorem envArrJson stBatch none recA "[1]" [exNormalRow]
    rfl rfl rfl rfl rfl rfl

/-- C8: the batch returns one entry per unit; a unit whose summarizer
call raises is recorded as a failed entry with the error text plus a
failure event while the state is untouched; and in the concrete 3-unit
batch where only unit 2 raises, the statuses are success/failed/success
and exactly one failure event — unit 2's — is published. -/
theorem C8_theorem :
    (∀ (env : AEnv) (cid : Option String) (st : S3) (records : List SRec),
      ((Analyzer.lambda_handler env cid st records).2.2).length = records.length) ∧
    (∀ (env : AEnv) (st : S3) (cid : Option String) (rec : SRec) (e : String)
        (rows : List ARow),
      object_exists st Analyzer.BUCKET_NAME
        (Analyzer.marker_key rec.bucket rec.key (rec.versionId.getD "null")) = false →
      strStartsWith rec.key Analyzer.PROCESSED_DIR = true →
      csv_to_dicts st rec.bucket rec.key = .ok rows →
      rows.isEmpty = false →
      env.bedrock rec.key = Except.error e →
      Analyzer.process_record env st cid rec =
        (st,
         [.getObj rec.bucket rec.key,
          .ebPut (failed_detail
            (cid.getD (rec.bucket ++ "/" ++ rec.key ++ "@" ++ rec.versionId.getD "null"))
            rec.bucket rec.key e)],
         { correlation_id :=
             cid.getD (rec.bucket ++ "/" ++ rec.key ++ "@" ++ rec.versionId.getD "null"),
           status := "failed", error := some e })) ∧
    ((Analyzer.lambda_handler envBatch none stBatch [recA, recB, recC]).2.2).map
        (fun r => r.status) = ["success", "failed", "success"] ∧
    ((Analyzer.lambda_handler envBatch none stBatch [recA, recB, recC]).2.1.filterMap
        (fun ef =>
          match ef with
          | .ebPut d => if d.status == "failed" then some d.correlation_id else none
          | _ => none)) = ["health-data-bucket/processed/b.csv@v1"] := by
  refine ⟨?_, ?_, rfl, rfl⟩
  · intro env cid st records
    induction records generalizing st with
    | nil => rfl
    | cons r rest ih => simp [Analyzer.lambda_handler, ih]
  · intro env st cid rec e rows hm hp hcsv hne hbed
    have hllm : analyze_with_llm (env.bedrock rec.key) = Except.error e := by
      rw [hbed]
      rfl
    simp [Analyzer.process_record, hm, hp, hcsv, hne, hllm]

/-- C8 witness: the per-unit failure shape at unit 2 of the concrete
batch. -/
theorem C8_witness :
    Analyzer.process_record envBatch stBatch none recB =
      (stBatch,
       [.getObj Analyzer.BUCKET_NAME "processed/b.csv",
        .ebPut (failed_detail "health-data-bucket/processed/b.csv@v1"
          Analyzer.BUCKET_NAME "processed/b.csv" "boom")],
       { correlation_id := "health-data-bucket/processed/b.csv@v1",
         status := "failed", error := some "boom" }) :=
  C8_theorem.2.1 envBatch stBatch none recB "boom" [exNormalRow]
    rfl rfl rfl rfl rfl

end FailureClaims

section StoreLemmas

open HealthPipeline

/-- A `put` never removes an existing key. -/
theorem object_exists_put (st : S3) (b k b2 k2 : String) (c : ObjContent)
    (h : object_exists st b k = true) :
    object_exists (S3.put st b2 k2 c) b k = true := by
  simp only [object_exists, S3.find, S3.put, List.find?] at *
  cases hpa : (b2 == b && k2 == k) with
  | true => simp [hpa]
  | false =>
    simp only [hpa]
    exact h

/-- A `put` key is visible afterwards. -/
theorem object_exists_put_self (st : S3) (b k : String) (c : ObjContent) :
    object_exists (S3.put st b k c) b k = true := by
  simp [object_exists, S3.find, S3.put, List.find?]

/-- One ingestor unit of work never removes a stored object. -/
theorem ingestor_record_mono (st : S3) (rec : Ingestor.IRec) (b k : String)
    (h : object_exists st b k = true) :
    object_exists (Ingestor.process_record st rec).1 b k = true := by
  cases h1 : object_exists st Ingestor.BUCKET_NAME
      (Ingestor.marker_key rec.bucket rec.key (rec.versionId.getD "null")) with
  | true => simpa [Ingestor.process_record, h1] using h
  | false =>
    cases h2 : strStartsWith rec.key Ingestor.RAW_DIR with
    | false => simpa [Ingestor.process_record, h1, h2] using h
    | true =>
      cases h3 : Ingestor.get_csv_rows st rec.bucket rec.key with
      | error e => simpa [Ingestor.process_record, h1, h2, h3] using h
      | ok rows =>
        simp only [Ingestor.process_record, h1, h2, h3, Bool.not_true, Bool.not_false,
          Bool.false_eq_true, if_false, if_true, ite_false, ite_true]
        apply object_exists_put
        apply object_exists_put
        split
        · split
          · exact h
          · exact object_exists_put _ _ _ _ _ _ h
        · apply object_exists_put
          split
          · exact h
          · exact object_exists_put _ _ _ _ _ _ h

/-- The whole ingestor batch never removes a stored object. -/
theorem ingestor_handler_mono :
    ∀ (records : List Ingestor.IRec) (st : S3) (b k : String),
      object_exists st b k = true →
      object_exists (Ingestor.lambda_handler st records).1 b k = true
  | [], _, _, _, h => h
  | r :: rest, st, b, k, h => by
    simp only [Ingestor.lambda_handler]
    exact ingestor_handler_mono rest _ b k (ingestor_record_mono st r b k h)

/-- One analyzer unit of work never removes a stored object. -/
theorem analyzer_record_mono (env : Analyzer.AEnv) (st : S3)
    (cid : Option String) (rec : Analyzer.SRec) (b k : String)
    (h : object_exists st b k = true) :
    object_exists (Analyzer.process_record env st cid rec).1 b k = true := by
  cases h1 : object_exists st Analyzer.BUCKET_NAME
      (Analyzer.marker_key rec.bucket rec.key (rec.versionId.getD "null")) with
  | true => simpa [Analyzer.process_record, h1] using h
  | false =>
    cases h2 : strStartsWith rec.key Analyzer.PROCESSED_DIR with
    | false => simpa [Analyzer.process_record, h1, h2] using h
    | true =>
      cases h3 : Analyzer.csv_to_dicts st rec.bucket rec.key with
      | error e => simpa [Analyzer.process_record, h1, h2, h3] using h
      | ok rows =>
        cases h4 : rows.isEmpty with
        | true => simpa [Analyzer.process_record, h1, h2, h3, h4] using h
        | false =>
          cases h5 : Analyzer.analyze_with_llm (env.bedrock rec.key) with
          | error e => simpa [Analyzer.process_record, h1, h2, h3, h4, h5] using h
          | ok llm =>
            simp only [Analyzer.process_record, h1, h2, h3, h4, h5, Bool.not_true,
              Bool.not_false, Bool.false_eq_true, if_false, if_true, ite_false, ite_true]
            exact object_exists_put _ _ _ _ _ _ (object_exists_put _ _ _ _ _ _ h)

/-- The whole analyzer batch never removes a stored object. -/
theorem analyzer_handler_mono (env : Analyzer.AEnv) (cid : Option String) :
    ∀ (records : List Analyzer.SRec) (st : S3) (b k : String),
      object_exists st b k = true →
      object_exists (Analyzer.lambda_handler env cid st records).1 b k = true
  | [], _, _, _, h => h
  | r :: rest, st, b, k, h => by
    simp only [Analyzer.lambda_handler]
    exact analyzer_handler_mono env cid rest _ b k
      (analyzer_record_mono env st cid r b k h)

/-- With the marker present the ingestor unit does nothing. -/
theorem ingestor_skip_marked (st : S3) (rec : Ingestor.IRec)
    (h : object_exists st Ingestor.BUCKET_NAME
      (Ingestor.marker_key rec.bucket rec.key (rec.versionId.getD "null")) = true) :
    Ingestor.process_record st rec = (st, []) := by
  simp [Ingestor.process_record, h]

/-- With the marker present the analyzer unit reports already-done and
does nothing. -/
theorem analyzer_skip_marked (env : Analyzer.AEnv) (st : S3)
    (cid : Option String) (rec : Analyzer.SRec)
    (h : object_exists st Analyzer.BUCKET_NAME
      (Analyzer.marker_key rec.bucket rec.key (rec.versionId.getD "null")) = true) :
    Analyzer.process_record env st cid rec =
      (st, [],
       { correlation_id :=
           cid.getD (rec.bucket ++ "/" ++ rec.key ++ "@" ++ rec.versionId.getD "null"),
         status := "skipped", reason := some "already_analyzed" }) := by
  simp [Analyzer.process_record, h]

/-- A successful analyzer unit leaves its own marker present. -/
theorem analyzer_success_marker (env : Analyzer.AEnv) (st : S3)
    (cid : Option String) (rec : Analyzer.SRec)
    (h : (Analyzer.process_record env st cid rec).2.2.status = "success") :
    object_exists (Analyzer.process_record env st cid rec).1 Analyzer.BUCKET_NAME
      (Analyzer.marker_key rec.bucket rec.key (rec.versionId.getD "null")) = true := by
  cases h1 : object_exists st Analyzer.BUCKET_NAME
      (Analyzer.marker_key rec.bucket rec.key (rec.versionId.getD "null")) with
  | true => simp [Analyzer.process_record, h1] at h
  | false =>
    cases h2 : strStartsWith rec.key Analyzer.PROCESSED_DIR with
    | false => simp [Analyzer.process_record, h1, h2] at h
    | true =>
      cases h3 : Analyzer.csv_to_dicts st rec.bucket rec.key with
      | error e => simp [Analyzer.process_record, h1, h2, h3] at h
      | ok rows =>
        cases h4 : rows.isEmpty with
        | true => simp [Analyzer.process_record, h1, h2, h3, h4] at h
        | false =>
          cases h5 : Analyzer.analyze_with_llm (env.bedrock rec.key) with
          | error e => simp [Analyzer.process_record, h1, h2, h3, h4, h5] at h
          | ok llm =>
            simp only [Analyzer.process_record, h1, h2, h3, h4, h5]
            simp only [Bool.not_true, Bool.false_eq_true, if_false, ite_false]
            exact object_exists_put_self _ _ _ _

end StoreLemmas

section IdempotencyClaims

open HealthPipeline

/-- C4: with the idempotency marker present each stage's unit reports
already-done and performs no side effect (no store change, no traced
operation, no event); no operation of either stage ever removes a stored
object (in particular a marker); and after a successful analyzer unit,
re-running the same unit from the resulting state is the no-effect
skip. -/
theorem C4_theorem :
    (∀ (st : S3) (rec : Ingestor.IRec),
      object_exists st Ingestor.BUCKET_NAME
        (Ingestor.marker_key rec.bucket rec.key (rec.versionId.getD "null")) = true →
      Ingestor.process_record st rec = (st, [])) ∧
    (∀ (env : Analyzer.AEnv) (st : S3) (cid : Option String) (rec : Analyzer.SRec),
      object_exists st Analyzer.BUCKET_NAME
        (Analyzer.marker_key rec.bucket rec.key (rec.versionId.getD "null")) = true →
      Analyzer.process_record env st cid rec =
        (st, [],
         { correlation_id :=
             cid.getD (rec.bucket ++ "/" ++ rec.key ++ "@" ++ rec.versionId.getD "null"),
           status := "skipped", reason := some "already_analyzed" })) ∧
    (∀ (records : List Ingestor.IRec) (st : S3) (b k : String),
      object_exists st b k = true →
      object_exists (Ingestor.lambda_handler st records).1 b k = true) ∧
    (∀ (env : Analyzer.AEnv) (cid : Option String) (records : List Analyzer.SRec)
        (st : S3) (b k : String),
      object_exists st b k = true →
      object_exists (Analyzer.lambda_handler env cid st records).1 b k = true) ∧
    (∀ (env : Analyzer.AEnv) (st : S3) (cid : Option String) (rec : Analyzer.SRec),
      (Analyzer.process_record env st cid rec).2.2.status = "success" →
      Analyzer.process_record env (Analyzer.process_record env st cid rec).1 cid rec =
        ((Analyzer.process_record env st cid rec).1, [],
         { correlation_id :=
             cid.getD (rec.bucket ++ "/" ++ rec.key ++ "@" ++ rec.versionId.getD "null"),
           status := "skipped", reason := some "already_analyzed" })) := by
  refine ⟨ingestor_skip_marked, analyzer_skip_marked, ingestor_handler_mono,
    fun env cid => analyzer_handler_mono env cid, ?_⟩
  intro env st cid rec h
  exact analyzer_skip_marked env _ cid rec (analyzer_success_marker env st cid rec h)

/-- C4 witness: the marked ingestor unit at a concrete store. -/
theorem C4_witness : Ingestor.process_record Ingestor.stMarked Ingestor.irecA =
    (Ingestor.stMarked, []) :=
  C4_theorem.1 Ingestor.stMarked Ingestor.irecA rfl

end IdempotencyClaims

section NotifierLemmas

open HealthPipeline HealthPipeline.Notifier

/-- Dict summary with no `health_status` member: the code never raises
and yields the findings text over the empty status. -/
theorem summary_text_dict_none (entries : List (String × DVal))
    (hg : dval_get entries "health_status" = none) :
    summary_text (.dictD entries) = Except.ok (dictFindingsText entries "") := by
  simp [summary_text, hg, DVal.truthy, dictFindingsText]

/-- Dict summary whose `health_status` member is a string: the code
never raises and yields the findings text over the stripped status. -/
theorem summary_text_dict_str (entries : List (String × DVal)) (s : String)
    (hg : dval_get entries "health_status" = some (.strD s)) :
    summary_text (.dictD entries) =
      Except.ok (dictFindingsText entries (strTrim s)) := by
  cases hse : s == "" with
  | true =>
    have hs0 : s = "" := by simpa using hse
    subst hs0
    simp only [summary_text, hg, DVal.truthy, dictFindingsText]
    rfl
  | false =>
    simp [summary_text, hg, DVal.truthy, hse, dictFindingsText]

/-- A summary of one of the spec's shapes never makes `summary_text`
raise. -/
theorem summary_text_ok (dv : DVal) (h : goodSummaryShape dv = true) :
    ∃ t, summary_text dv = Except.ok t := by
  cases dv with
  | strD s => exact ⟨strTrim s, rfl⟩
  | dictD entries =>
    cases hg : dval_get entries "health_status" with
    | none => exact ⟨_, summary_text_dict_none entries hg⟩
    | some hv =>
      cases hv with
      | strD s => exact ⟨_, summary_text_dict_str entries s hg⟩
      | numD d => simp [goodSummaryShape, hg] at h
      | boolD bb => simp [goodSummaryShape, hg] at h
      | noneD => simp [goodSummaryShape, hg] at h
      | listD l => simp [goodSummaryShape, hg] at h
      | dictD e2 => simp [goodSummaryShape, hg] at h
  | numD d => simp [goodSummaryShape] at h
  | boolD bb => simp [goodSummaryShape] at h
  | noneD => simp [goodSummaryShape] at h
  | listD l => simp [goodSummaryShape] at h

/-- Under the spec's shapes the collection loop never raises and every
collected summary is nonempty. -/
theorem collect_summaries_ok (items : List Item)
    (hall : ∀ item ∈ items, goodSummaryShape (item.summary.getD (.dictD [])) = true) :
    ∃ ts, collect_summaries items = Except.ok ts ∧ ∀ t ∈ ts, ¬(t = "") := by
  induction items with
  | nil => exact ⟨[], rfl, by simp⟩
  | cons it rest ih =>
    obtain ⟨t, ht⟩ := summary_text_ok _ (hall it (by simp))
    obtain ⟨ts, hts, hne⟩ := ih (fun x hx => hall x (List.mem_cons_of_mem _ hx))
    cases hguard : (!(t == "") && !(t == "Analysis completed.")) with
    | true =>
      refine ⟨t :: ts, ?_, ?_⟩
      · simp [collect_summaries, ht, hts, hguard]
      · intro x hx
        rcases List.mem_cons.mp hx with rfl | hx2
        · have hg2 : ¬(x = "") ∧ ¬(x = "Analysis completed.") := by simpa using hguard
          exact hg2.1
        · exact hne x hx2
    | false =>
      exact ⟨ts, by simp [collect_summaries, ht, hts, hguard], hne⟩

end NotifierLemmas

section NotifierClaims

open HealthPipeline HealthPipeline.Notifier

/-- C3 counterexample: with two records in scope the code returns only
the most recent record's fields, not the deduplicated order-preserving
union the claim requires (["A1"] versus ["A1", "A2"]). -/
theorem C3_counterexample :
    extract_insights_and_recommendations [itemA, itemB] = (["A1"], ["R1"]) ∧
    specUnion [["A1"], ["A2"]] = ["A1", "A2"] ∧
    ¬((["A1"] : List String) = ["A1", "A2"]) := ⟨rfl, rfl, by decide⟩

/-- C3 (amended): regardless of how many records are selected, the
reported insights and recommendations are exactly the most recent
record's fields (its `.get` defaults applied); no union, deduplication
or placeholder-sentinel filtering is applied — sentinels pass through
verbatim and older records are ignored. -/
theorem C3_theorem :
    (∀ (it : Item) (rest : List Item),
      extract_insights_and_recommendations (it :: rest) =
        (it.insights.getD [], it.recommendations.getD [])) ∧
    extract_insights_and_recommendations [] = ([], []) ∧
    extract_insights_and_recommendations [itemSent, itemB] =
      (["No major trends observed", "A3"], ["No recommendations"]) :=
  ⟨fun _ _ => rfl, rfl, rfl⟩

/-- C6: for records whose summaries take the spec's shapes, deriving the
executive summary never raises and the result is a nonempty string; each
of the three §8 example inputs normalizes to a concrete nonempty
executive summary. -/
theorem C6_theorem :
    (∀ items : List Item,
      (∀ item ∈ items, goodSummaryShape (item.summary.getD (.dictD [])) = true) →
      ∃ r, format_executive_summary items = Except.ok r ∧ ¬(r = "")) ∧
    format_executive_summary [itemStructured] =
      Except.ok "stable Key findings: x y" ∧
    format_executive_summary [itemPlain] = Except.ok "plain text summary" ∧
    format_executive_summary [itemFenced] = Except.ok fencedText ∧
    ¬(fencedText = "") := by
  refine ⟨?_, rfl, rfl, rfl, by decide⟩
  intro items hall
  obtain ⟨ts, hts, hne⟩ := collect_summaries_ok items hall
  cases ts with
  | nil =>
    refine
      ⟨"Health data analysis completed successfully. Regular monitoring continues.",
        ?_, by decide⟩
    simp [format_executive_summary, hts]
  | cons t ts2 =>
    refine ⟨t, ?_, hne t (by simp)⟩
    simp [format_executive_summary, hts, joinSep]

/-- C6 witness: the never-raises statement applied to the structured §8
input. -/
theorem C6_witness :
    ∃ r, format_executive_summary [itemStructured] = Except.ok r ∧ ¬(r = "") :=
  C6_theorem.1 [itemStructured] (by decide)

end NotifierClaims

section EvaluationChecks

open HealthPipeline HealthPipeline.Ingestor

example : parse_int "200" = some 200 := by decide
example : parse_int "abc" = none := by decide
example : parse_float "36.5" = some ⟨365, 1⟩ := by decide
example : parse_int "75.5" = some 75 := by decide
example : parse_int "-5.5" = some (-5) := by decide
example :
    validate_row
      [("event_time", "t"), ("user_id", "u"), ("heart_rate", "200"),
       ("spo2", "abc"), ("steps", "1000"), ("temp_c", "36.5"),
       ("systolic_bp", "120"), ("diastolic_bp", "80")] =
    (false, "invalid_heart_rate") := by decide
example :
    validate_row
      [("event_time", "t"), ("user_id", "u"), ("heart_rate", "75"),
       ("spo2", "98"), ("steps", "1000"), ("temp_c", "36.5"),
       ("systolic_bp", "100"), ("diastolic_bp", "105")] =
    (false, "dbp_gt_sbp") := by decide
example :
    validate_row
      [("event_time", "t"), ("user_id", "u"), ("heart_rate", "75"),
       ("spo2", "98"), ("steps", "1000"), ("temp_c", "36.5"),
       ("systolic_bp", "120"), ("diastolic_bp", "80")] =
    (true, "ok") := by decide
example :
    validate_row
      [("event_time", "t"), ("user_id", "u"), ("heart_rate", ""),
       ("spo2", "98"), ("steps", "1000"), ("temp_c", "36.5"),
       ("systolic_bp", "120"), ("diastolic_bp", "80")] =
    (false, "missing_heart_rate") := by decide
example :
    marker_key "b" "raw/x.csv" "v1" = "markers/b__raw__x.csv__v1.done" := by decide

example : json_loads "not json" = none := rfl
example : json_loads "\x7b\x7d" = some (.objJ []) := rfl
example : json_loads " \x7b\"a\": [1, 2.5], \"b\": \"hi\"\x7d " =
    some (.objJ [("a", .arrJ [.numJ ⟨1, 0⟩, .numJ ⟨25, 1⟩]), ("b", .strJ "hi")]) := rfl
example : json_loads "\x7b\"summary\": \"z\", \"insights\": [\"i1\"]\x7d" =
    some (.objJ [("summary", .strJ "z"), ("insights", .arrJ [.strJ "i1"])]) := rfl
example : json_loads "null" = some .nullJ := rfl
example : json_loads "true" = some (.boolJ true) := rfl
example : json_loads "-3e2" = some (.numJ ⟨-300, 0⟩) := rfl
example : json_loads "[1," = none := rfl
example :
    Analyzer.strip_fences "```json\n\x7b\"summary\": \"z\"\x7d\n```" =
      "\x7b\"summary\": \"z\"\x7d" := rfl
example : Analyzer.strip_fences "plain" = "plain" := rfl
example :
    Analyzer.analyze_with_llm (Except.ok "not json") =
      Except.error "JSONDecodeError" := rfl
example :
    (Analyzer.analyze_with_llm (Except.ok "```json\n\x7b\"summary\": \"z\"\x7d\n```")).isOk =
      true := rfl
example :
    Analyzer.analyze_with_llm (Except.ok "[1]") = Except.error "AttributeError" := rfl

end EvaluationChecks
